import Mathlib

/-!
# Verification of the THide taskbar-hiding utility

A shallow embedding of `src/main.rs` and `src/cli.rs` of the `thide`
repository, together with theorems settling the frozen claims about it.

Modelling conventions:
* Machine integers (`u32`, message ids) are `Nat`; the only arithmetic the
  program performs on them (`|`, `&`) cannot overflow a `u32` for the values
  involved, so no `% 2^32` is needed.
* `std::time::Instant` is modelled as a monotonic millisecond counter (`Nat`).
* OS side effects (AppBar reads/writes, `ShowWindow`, `MessageBoxW`,
  `PostMessageW`, spawning, registry edits) are modelled by threading explicit
  state / returning explicit call traces, with the OS environment (window
  lists, registry outcomes, mutex contention) passed in as parameters.
* Rust `String::to_lowercase` / `eq_ignore_ascii_case` are modelled by
  mapping `Char.toLower` over the characters; for the ASCII data compared by
  this program the two agree.
-/

set_option autoImplicit false

namespace THide

/-! ## Constants (src/main.rs lines 31-32, Win32 values) -/

def TASKBAR_MONITOR_INTERVAL_MS : Nat := 500

def TASKBAR_CACHE_REFRESH_MS : Nat := 5000

/-- Win32 `ABS_AUTOHIDE` bit. -/
def ABS_AUTOHIDE : Nat := 1

/-! ## String helpers -/

/-- ASCII case-insensitive prefix test over character lists. -/
def leadsWith : List Char → List Char → Bool
  | _, [] => true
  | [], _ :: _ => false
  | a :: as, b :: bs => a == b && leadsWith as bs

/-- Substring search over character lists (Rust `str::contains`). -/
def subSearch : List Char → List Char → Bool
  | [], needle => needle.isEmpty
  | hay@(_ :: t), needle => leadsWith hay needle || subSearch t needle

/-- Rust `str::contains` (substring containment). -/
def strContains (hay needle : String) : Bool := subSearch hay.data needle.data

/-- Rust `str::to_lowercase`, restricted to the ASCII lowering `Char.toLower`
performs; the command strings this program lowers are ASCII. -/
def lowerStr (s : String) : String := String.mk (s.data.map Char.toLower)

/-- Rust `str::eq_ignore_ascii_case` (src/main.rs line 200). -/
def eqIgnoreAsciiCase (a b : String) : Bool :=
  a.data.map Char.toLower == b.data.map Char.toLower

/-! ## TaskbarCache (src/main.rs lines 43-71)

Time is an explicit millisecond parameter `now`; the enumeration the OS would
return at refresh time is the explicit parameter `enumerated`. -/

structure TaskbarCache where
  handles : List Nat
  last_updated : Nat
  deriving DecidableEq, Repr

/-- `TaskbarCache::new` (line 49): empty handle list, timestamp backdated by
10 seconds. `t0` is the current instant at construction. -/
def TaskbarCache.new (t0 : Nat) : TaskbarCache :=
  { handles := [], last_updated := t0 - 10000 }

/-- `TaskbarCache::should_refresh` (line 56). -/
def TaskbarCache.should_refresh (c : TaskbarCache) (now : Nat) : Bool :=
  now - c.last_updated > TASKBAR_CACHE_REFRESH_MS

/-- `TaskbarCache::update` (line 60). -/
def TaskbarCache.update (c : TaskbarCache) (hs : List Nat) (now : Nat) : TaskbarCache :=
  { c with handles := hs, last_updated := now }

/-- `TaskbarCache::get` (line 65). Returns the handles served, the cache
afterwards, and whether a re-enumeration call was performed. -/
def TaskbarCache.get (c : TaskbarCache) (now : Nat) (enumerated : List Nat) :
    List Nat × TaskbarCache × Bool :=
  if c.should_refresh now then (enumerated, c.update enumerated now, true)
  else (c.handles, c, false)

/-! ## AppBar state and TaskbarStateManager (src/main.rs lines 267-322) -/

structure TaskbarStateManager where
  original_state : Nat
  enforced_state : Nat
  deriving DecidableEq, Repr

/-- `TaskbarStateManager::new` (lines 293-305). `s` is the AppBar state
`ABM_GETSTATE` returns at construction. Result: the manager, the AppBar state
after construction, and whether `ABM_SETSTATE` was issued. -/
def TaskbarStateManager.new (s : Nat) : TaskbarStateManager × Nat × Bool :=
  if s ||| ABS_AUTOHIDE ≠ s then (⟨s, s ||| ABS_AUTOHIDE⟩, s ||| ABS_AUTOHIDE, true)
  else (⟨s, s ||| ABS_AUTOHIDE⟩, s, false)

/-- `TaskbarStateManager::enforce` (line 308): the value it writes. -/
def TaskbarStateManager.enforce (m : TaskbarStateManager) : Nat := m.enforced_state

/-- `TaskbarStateManager::restore` (line 313, also run by `Drop`, line 319):
the value it writes. -/
def TaskbarStateManager.restore (m : TaskbarStateManager) : Nat := m.original_state

/-! ## Bit lemmas used for C4 -/

theorem lor_one_of_odd (s : Nat) (h : s % 2 = 1) : s ||| 1 = s := by
  apply Nat.eq_of_testBit_eq
  intro i
  cases i with
  | zero => simp [Nat.testBit_lor, Nat.testBit_zero, h]
  | succ n =>
    have h1 : Nat.testBit 1 (n + 1) = false := by
      rw [Nat.testBit_succ]
      simp [Nat.zero_testBit]
    simp [Nat.testBit_lor, h1]

theorem lor_one_of_even (s : Nat) (h : s % 2 = 0) : s ||| 1 ≠ s := by
  intro heq
  have h0 : (s ||| 1).testBit 0 = s.testBit 0 := by rw [heq]
  rw [Nat.testBit_lor, Nat.testBit_zero, Nat.testBit_zero, h] at h0
  simp at h0

/-! ## Claim C4: TaskbarStateManager::new -/

/-- C4: `TaskbarStateManager::new` captures the AppBar state read at
construction as `original_state`, sets `enforced_state` to `original_state`
with the auto-hide bit OR'd in, and issues the `ABM_SETSTATE` write if and
only if the auto-hide bit was not already set in `original_state`. -/
theorem taskbar_state_manager_new_spec (s : Nat) :
    (TaskbarStateManager.new s).1.original_state = s ∧
    (TaskbarStateManager.new s).1.enforced_state = s ||| ABS_AUTOHIDE ∧
    ((TaskbarStateManager.new s).2.2 = true ↔ s &&& ABS_AUTOHIDE = 0) := by
  have hmod := Nat.mod_two_eq_zero_or_one s
  have hand : s &&& ABS_AUTOHIDE = s % 2 := Nat.and_one_is_mod s
  unfold TaskbarStateManager.new
  split
  next h =>
    refine ⟨rfl, rfl, ?_⟩
    rw [hand]
    constructor
    · intro _
      rcases hmod with h0 | h1
      · exact h0
      · exact absurd (lor_one_of_odd s h1) (by simpa [ABS_AUTOHIDE] using h)
    · intro _
      rfl
  next h =>
    refine ⟨rfl, rfl, ?_⟩
    rw [hand]
    constructor
    · intro hfalse
      exact absurd hfalse (by simp)
    · intro h0
      have := lor_one_of_even s h0
      simp [ABS_AUTOHIDE] at h
      exact absurd h this

/-! ## Claim C5: cache refresh window -/

/-- C5: two `get()` reads whose age since the last refresh is within the
5000 ms refresh window serve the stored handle list with no re-enumeration;
a `get()` whose age exceeds the window performs the re-enumeration and
records the new timestamp. -/
theorem taskbar_cache_refresh_window (c : TaskbarCache) (t1 t2 t3 : Nat)
    (e1 e2 e3 : List Nat)
    (h1 : t1 - c.last_updated ≤ TASKBAR_CACHE_REFRESH_MS)
    (h2 : t2 - c.last_updated ≤ TASKBAR_CACHE_REFRESH_MS)
    (h3 : t3 - c.last_updated > TASKBAR_CACHE_REFRESH_MS) :
    (c.get t1 e1).1 = c.handles ∧ (c.get t1 e1).2.2 = false ∧
    ((c.get t1 e1).2.1.get t2 e2).1 = c.handles ∧
    ((c.get t1 e1).2.1.get t2 e2).2.2 = false ∧
    (c.get t3 e3).2.2 = true ∧ (c.get t3 e3).1 = e3 ∧
    (c.get t3 e3).2.1.last_updated = t3 ∧ (c.get t3 e3).2.1.handles = e3 := by
  have hr1 : c.should_refresh t1 = false := by
    simp only [TaskbarCache.should_refresh, decide_eq_false_iff_not, not_lt]
    exact h1
  have hr2 : c.should_refresh t2 = false := by
    simp only [TaskbarCache.should_refresh, decide_eq_false_iff_not, not_lt]
    exact h2
  have hr3 : c.should_refresh t3 = true := by
    simp only [TaskbarCache.should_refresh, decide_eq_true_eq]
    exact h3
  have hg1 : c.get t1 e1 = (c.handles, c, false) := by
    simp [TaskbarCache.get, hr1]
  refine ⟨by rw [hg1], by rw [hg1], ?_, ?_, ?_, ?_, ?_, ?_⟩
  · rw [hg1]
    simp [TaskbarCache.get, hr2]
  · rw [hg1]
    simp [TaskbarCache.get, hr2]
  · simp [TaskbarCache.get, hr3]
  · simp [TaskbarCache.get, hr3]
  · simp [TaskbarCache.get, hr3, TaskbarCache.update]
  · simp [TaskbarCache.get, hr3, TaskbarCache.update]

/-- Witness for C5 at a concrete cache and concrete instants (second read
exactly at the window boundary, still cached; third read well past it). -/
theorem taskbar_cache_refresh_window_witness :
    (100000 - (100000 : Nat) ≤ TASKBAR_CACHE_REFRESH_MS ∧
      105000 - (100000 : Nat) ≤ TASKBAR_CACHE_REFRESH_MS ∧
      200000 - (100000 : Nat) > TASKBAR_CACHE_REFRESH_MS) ∧
    ((TaskbarCache.get ⟨[7], 100000⟩ 100000 [1]).1 = [7] ∧
      (TaskbarCache.get ⟨[7], 100000⟩ 100000 [1]).2.2 = false ∧
      ((TaskbarCache.get ⟨[7], 100000⟩ 100000 [1]).2.1.get 105000 [2]).1 = [7] ∧
      ((TaskbarCache.get ⟨[7], 100000⟩ 100000 [1]).2.1.get 105000 [2]).2.2 = false ∧
      (TaskbarCache.get ⟨[7], 100000⟩ 200000 [3]).2.2 = true ∧
      (TaskbarCache.get ⟨[7], 100000⟩ 200000 [3]).1 = [3] ∧
      (TaskbarCache.get ⟨[7], 100000⟩ 200000 [3]).2.1.last_updated = 200000 ∧
      (TaskbarCache.get ⟨[7], 100000⟩ 200000 [3]).2.1.handles = [3]) :=
  ⟨⟨by decide, by decide, by decide⟩,
    taskbar_cache_refresh_window ⟨[7], 100000⟩ 100000 105000 200000 [1] [2] [3]
      (by decide) (by decide) (by decide)⟩

/-! ## Claim C10: a fresh cache always re-enumerates on first get -/

/-- C10: `TaskbarCache::new` backdates `last_updated` by 10 s, which exceeds
the 5 s refresh threshold, so the first `get()` (at any instant at or after
construction) re-enumerates and serves the fresh enumeration, never the empty
initial handle list. `10000 ≤ t0` reflects that the monotonic clock at
process start is past its first ten seconds (Rust `Instant` subtraction would
panic otherwise). -/
theorem taskbar_cache_first_get_refreshes (t0 now : Nat) (env : List Nat)
    (h0 : 10000 ≤ t0) (h1 : t0 ≤ now) :
    (TaskbarCache.new t0).should_refresh now = true ∧
    ((TaskbarCache.new t0).get now env).2.2 = true ∧
    ((TaskbarCache.new t0).get now env).1 = env := by
  have hr : (TaskbarCache.new t0).should_refresh now = true := by
    simp only [TaskbarCache.new, TaskbarCache.should_refresh,
      TASKBAR_CACHE_REFRESH_MS, decide_eq_true_eq]
    omega
  exact ⟨hr, by simp [TaskbarCache.get, hr], by simp [TaskbarCache.get, hr]⟩

/-- Witness for C10: cache constructed at instant 10000, read at 12000. -/
theorem taskbar_cache_first_get_refreshes_witness :
    ((10000 : Nat) ≤ 10000 ∧ (10000 : Nat) ≤ 12000) ∧
    ((TaskbarCache.new 10000).should_refresh 12000 = true ∧
      ((TaskbarCache.new 10000).get 12000 [5]).2.2 = true ∧
      ((TaskbarCache.new 10000).get 12000 [5]).1 = [5]) :=
  ⟨⟨by decide, by decide⟩,
    taskbar_cache_first_get_refreshes 10000 12000 [5] (by decide) (by decide)⟩

/-! ## Window enumerator (src/main.rs lines 123-142 and 169-216)

The OS environment is the two lists of top-level windows that
`FindWindowExW` walks for the two window classes, in enumeration order.
`get_process_name` (lines 123-142) returns `None` when the owning process
cannot be opened or queried; that is the `procName` field. -/

structure TaskbarWindow where
  hwnd : Nat
  procName : Option String
  deriving DecidableEq, Repr

/-- The match test of src/main.rs lines 199-200: a window whose owning
process name resolves and equals `explorer.exe` ASCII-case-insensitively;
a `get_process_name` failure is a non-match. -/
def isExplorerWindow (w : TaskbarWindow) : Bool :=
  match w.procName with
  | some n => eqIgnoreAsciiCase n "explorer.exe"
  | none => false

/-- The `FindWindowExW` loop of src/main.rs lines 183-210 for one window
class: walk the windows in order; push each match; for the primary class
stop at the first match. -/
def scanClass (is_primary : Bool) : List TaskbarWindow → List TaskbarWindow
  | [] => []
  | w :: rest =>
    if isExplorerWindow w then
      if is_primary then [w] else w :: scanClass is_primary rest
    else scanClass is_primary rest

/-- `find_all_explorer_taskbars_uncached` (lines 169-216): scan the
`Shell_TrayWnd` class as primary, then the `Shell_SecondaryTrayWnd` class. -/
def find_all_explorer_taskbars_uncached
    (primaryWins secondaryWins : List TaskbarWindow) : List TaskbarWindow :=
  scanClass true primaryWins ++ scanClass false secondaryWins

theorem scanClass_primary_eq_find (l : List TaskbarWindow) :
    scanClass true l = (l.find? isExplorerWindow).toList := by
  induction l with
  | nil => rfl
  | cons w rest ih =>
    by_cases h : isExplorerWindow w
    · simp [scanClass, h, List.find?_cons_of_pos]
    · simp [scanClass, h, List.find?_cons_of_neg, ih]

theorem scanClass_secondary_eq_filter (l : List TaskbarWindow) :
    scanClass false l = l.filter isExplorerWindow := by
  induction l with
  | nil => rfl
  | cons w rest ih =>
    by_cases h : isExplorerWindow w
    · simp [scanClass, h, List.filter_cons, ih]
    · simp [scanClass, h, List.filter_cons, ih]

/-! ## Claim C6: enumerator scans -/

/-- C6: the enumerator scans twice — for the primary class it yields exactly
the first window owned by `explorer.exe` (none if there is none), for the
secondary class it collects all such windows; a window whose owning process
cannot be queried (`procName = none`) is a non-match, never an error, and
the process-name comparison is ASCII-case-insensitive. -/
theorem enumerator_two_scans (primaryWins secondaryWins : List TaskbarWindow) :
    find_all_explorer_taskbars_uncached primaryWins secondaryWins =
      (primaryWins.find? isExplorerWindow).toList ++
        secondaryWins.filter isExplorerWindow ∧
    (∀ h : Nat, isExplorerWindow ⟨h, none⟩ = false) ∧
    (∀ h : Nat, ∀ n : String,
      isExplorerWindow ⟨h, some n⟩ = eqIgnoreAsciiCase n "explorer.exe") ∧
    isExplorerWindow ⟨0, some "EXPLORER.EXE"⟩ = true := by
  refine ⟨?_, fun h => rfl, fun h n => rfl, by decide⟩
  unfold find_all_explorer_taskbars_uncached
  rw [scanClass_primary_eq_find, scanClass_secondary_eq_filter]

/-! ## IPC messages and the main event loop (src/main.rs lines 34-40, 504-548)

The IPC handler (lines 509-527) and the tray-menu handler (lines 530-547)
execute line-for-line identical bodies for Show/Hide/Quit, so one transition
function models both event sources. The loop state tracks the shared
`should_hide` atomic, the AppBar value last written, whether the taskbars were
last shown or hidden, and how often `restore()` / `enforce()` have run. -/

inductive IPCMessage where
  | Show
  | Hide
  | Quit
  deriving DecidableEq, Repr

structure LoopState where
  should_hide : Bool
  appbar : Nat
  taskbars_shown : Bool
  restoreCalls : Nat
  enforceCalls : Nat
  deriving DecidableEq, Repr

/-- One execution of the shared Show/Hide/Quit handler body. Returns the
state afterwards and whether `elwt.exit()` was requested. -/
def handleEvent (m : TaskbarStateManager) (ev : IPCMessage) (st : LoopState) :
    LoopState × Bool :=
  match ev with
  | .Show =>
    ({ st with
        should_hide := false
        appbar := m.restore
        taskbars_shown := true
        restoreCalls := st.restoreCalls + 1 }, false)
  | .Hide =>
    ({ st with
        should_hide := true
        appbar := m.enforce
        taskbars_shown := false
        enforceCalls := st.enforceCalls + 1 }, false)
  | .Quit =>
    ({ st with
        should_hide := false
        appbar := m.restore
        taskbars_shown := true
        restoreCalls := st.restoreCalls + 1 }, true)

/-- `event_loop.run` (line 504): process the incoming events in order,
stopping after the handler that requests exit. -/
def runLoop (m : TaskbarStateManager) : List IPCMessage → LoopState → LoopState
  | [], st => st
  | ev :: rest, st =>
    if (handleEvent m ev st).2 then (handleEvent m ev st).1
    else runLoop m rest (handleEvent m ev st).1

/-- State of the GUI process right before `event_loop.run` (line 504):
`enforce()` has run once (line 479), the taskbars were hidden (line 480),
and `should_hide` starts `true` (line 486). -/
def initialLoopState (m : TaskbarStateManager) : LoopState :=
  { should_hide := true, appbar := m.enforce, taskbars_shown := false,
    restoreCalls := 0, enforceCalls := 1 }

/-- The GUI-mode process lifetime from line 478 on: construct the
`TaskbarStateManager` (line 478), call `enforce()` (line 479) and
`set_taskbar_state(false)` (line 480), run the event loop, and — after
`event_loop.run` returns — drop the two `Arc` clones of the manager, so
`Drop::drop` (lines 318-322) runs `restore()` once more. Result: the
manager and the final state. -/
def mainGuiLifetime (initState : Nat) (events : List IPCMessage) :
    TaskbarStateManager × LoopState :=
  let m := (TaskbarStateManager.new initState).1
  let stEnd := runLoop m events (initialLoopState m)
  (m, { stEnd with appbar := m.restore, restoreCalls := stEnd.restoreCalls + 1 })

theorem runLoop_cons_show (m : TaskbarStateManager) (rest : List IPCMessage)
    (st : LoopState) :
    runLoop m (IPCMessage.Show :: rest) st =
      runLoop m rest (handleEvent m IPCMessage.Show st).1 := rfl

theorem runLoop_cons_hide (m : TaskbarStateManager) (rest : List IPCMessage)
    (st : LoopState) :
    runLoop m (IPCMessage.Hide :: rest) st =
      runLoop m rest (handleEvent m IPCMessage.Hide st).1 := rfl

theorem runLoop_cons_quit (m : TaskbarStateManager) (rest : List IPCMessage)
    (st : LoopState) :
    runLoop m (IPCMessage.Quit :: rest) st =
      (handleEvent m IPCMessage.Quit st).1 := rfl

theorem runLoop_restoreCalls_mono (m : TaskbarStateManager)
    (evs : List IPCMessage) : ∀ st : LoopState,
    st.restoreCalls ≤ (runLoop m evs st).restoreCalls := by
  induction evs with
  | nil =>
    intro st
    exact Nat.le_refl _
  | cons ev rest ih =>
    intro st
    cases ev with
    | Show =>
      rw [runLoop_cons_show]
      exact Nat.le_trans (Nat.le_succ _) (ih (handleEvent m IPCMessage.Show st).1)
    | Hide =>
      rw [runLoop_cons_hide]
      exact ih (handleEvent m IPCMessage.Hide st).1
    | Quit =>
      rw [runLoop_cons_quit]
      exact Nat.le_succ _

theorem runLoop_quit_restores (m : TaskbarStateManager) (evs : List IPCMessage)
    (hq : IPCMessage.Quit ∈ evs) : ∀ st : LoopState,
    st.restoreCalls + 1 ≤ (runLoop m evs st).restoreCalls := by
  induction evs with
  | nil => cases hq
  | cons ev rest ih =>
    intro st
    cases ev with
    | Show =>
      rw [runLoop_cons_show]
      exact runLoop_restoreCalls_mono m rest (handleEvent m IPCMessage.Show st).1
    | Hide =>
      have hq2 : IPCMessage.Quit ∈ rest := by
        cases hq with
        | tail _ h => exact h
      rw [runLoop_cons_hide]
      exact ih hq2 (handleEvent m IPCMessage.Hide st).1
    | Quit =>
      rw [runLoop_cons_quit]
      exact Nat.le_refl _

/-! ## Claim C1: restore on the normal Quit path -/

/-- C1 as stated is false: on the shortest normal Quit path — a single Quit
event — `restore()` runs twice, not exactly once: once in the Quit handler
(src/main.rs lines 520-525) and once more when the `TaskbarStateManager` is
dropped (lines 318-322) after `event_loop.run` returns. -/
theorem quit_path_restore_count_counterexample :
    (mainGuiLifetime 0 [IPCMessage.Quit]).2.restoreCalls = 2 ∧
    (mainGuiLifetime 0 [IPCMessage.Quit]).2.restoreCalls ≠ 1 := by
  constructor
  · rfl
  · decide

theorem mainGuiLifetime_fst (initState : Nat) (events : List IPCMessage) :
    (mainGuiLifetime initState events).1 = (TaskbarStateManager.new initState).1 := rfl

theorem mainGuiLifetime_restoreCalls (initState : Nat) (events : List IPCMessage) :
    (mainGuiLifetime initState events).2.restoreCalls =
      (runLoop (TaskbarStateManager.new initState).1 events
        (initialLoopState (TaskbarStateManager.new initState).1)).restoreCalls + 1 := rfl

/-- C1 (amended): on the normal Quit path `restore()` is called at least
twice — once by the Quit handler and once more by the `Drop` of the
`TaskbarStateManager` — and after the final restore the AppBar auto-hide
flag equals the value captured at construction, for every interleaving of
`enforce()`/`restore()` calls (Show/Hide events) in between. -/
theorem quit_path_restores_original (initState : Nat) (events : List IPCMessage)
    (hq : IPCMessage.Quit ∈ events) :
    (mainGuiLifetime initState events).2.appbar =
      (mainGuiLifetime initState events).1.original_state ∧
    (mainGuiLifetime initState events).1.original_state = initState ∧
    2 ≤ (mainGuiLifetime initState events).2.restoreCalls := by
  refine ⟨rfl, ?_, ?_⟩
  · rw [mainGuiLifetime_fst]
    unfold TaskbarStateManager.new
    split
    · rfl
    · rfl
  · rw [mainGuiLifetime_restoreCalls]
    have h := runLoop_quit_restores (TaskbarStateManager.new initState).1 events hq
      (initialLoopState (TaskbarStateManager.new initState).1)
    have h2 : 0 + 1 ≤ (runLoop (TaskbarStateManager.new initState).1 events
        (initialLoopState (TaskbarStateManager.new initState).1)).restoreCalls := h
    omega

/-- Witness for the amended C1 at the concrete lifetime `[Quit]` starting
from AppBar state 0. -/
theorem quit_path_restores_original_witness :
    IPCMessage.Quit ∈ [IPCMessage.Quit] ∧
    ((mainGuiLifetime 0 [IPCMessage.Quit]).2.appbar =
      (mainGuiLifetime 0 [IPCMessage.Quit]).1.original_state ∧
    (mainGuiLifetime 0 [IPCMessage.Quit]).1.original_state = 0 ∧
    2 ≤ (mainGuiLifetime 0 [IPCMessage.Quit]).2.restoreCalls) :=
  ⟨by decide, quit_path_restores_original 0 [IPCMessage.Quit] (by decide)⟩

/-! ## Claim C3: VisibilityIntent tracks the last Show/Hide event -/

/-- C3: for every nonempty sequence of Show and Hide events processed by the
main loop — via the IPC path or the identical tray-menu path — the
`should_hide` atomic after the last event is `true` if and only if the last
event was Hide. -/
theorem visibility_intent_tracks_last_event (m : TaskbarStateManager)
    (events : List IPCMessage) (st : LoopState)
    (hne : events ≠ [])
    (hq : IPCMessage.Quit ∉ events) :
    ((runLoop m events st).should_hide = true ↔
      events.getLast? = some IPCMessage.Hide) := by
  induction events generalizing st with
  | nil => exact absurd rfl hne
  | cons ev rest ih =>
    cases rest with
    | nil =>
      cases ev with
      | Show => simp [runLoop, handleEvent]
      | Hide => simp [runLoop, handleEvent]
      | Quit => exact absurd (List.mem_singleton_self _) hq
    | cons e2 r2 =>
      have hne2 : (e2 :: r2) ≠ [] := by simp
      have hq2 : IPCMessage.Quit ∉ (e2 :: r2) := fun h =>
        hq (List.mem_cons_of_mem _ h)
      cases ev with
      | Show =>
        rw [runLoop_cons_show, List.getLast?_cons_cons]
        exact ih (handleEvent m IPCMessage.Show st).1 hne2 hq2
      | Hide =>
        rw [runLoop_cons_hide, List.getLast?_cons_cons]
        exact ih (handleEvent m IPCMessage.Hide st).1 hne2 hq2
      | Quit => exact absurd (List.mem_cons_self _ _) hq

/-- Witness for C3 on the concrete event sequence `[Show, Hide]`. -/
theorem visibility_intent_tracks_last_event_witness :
    ([IPCMessage.Show, IPCMessage.Hide] ≠ [] ∧
      IPCMessage.Quit ∉ [IPCMessage.Show, IPCMessage.Hide]) ∧
    ((runLoop ⟨0, 1⟩ [IPCMessage.Show, IPCMessage.Hide]
        (initialLoopState ⟨0, 1⟩)).should_hide = true ↔
      [IPCMessage.Show, IPCMessage.Hide].getLast? = some IPCMessage.Hide) :=
  ⟨⟨by decide, by decide⟩,
    visibility_intent_tracks_last_event ⟨0, 1⟩
      [IPCMessage.Show, IPCMessage.Hide] (initialLoopState ⟨0, 1⟩)
      (by decide) (by decide)⟩

/-! ## OS-call traces and the singleton guard (src/main.rs lines 339-359, 446-504) -/

inductive OsCall where
  | messageBox
  | appbarWrite (v : Nat)
  | setTaskbarVisible (b : Bool)
  deriving DecidableEq, Repr

/-- `check_single_instance` (lines 339-359): if the named mutex already
exists, show the warning dialog and return no handle; otherwise return the
handle (modelled as `Unit`). Also returns the OS calls performed. -/
def check_single_instance (alreadyExists : Bool) : Option Unit × List OsCall :=
  if alreadyExists then (none, [OsCall.messageBox]) else (some (), [])

/-- OS calls of one Show/Hide/Quit handler body (lines 509-527/530-547):
an AppBar write by `restore()`/`enforce()` then `set_taskbar_state`. -/
def eventCalls (m : TaskbarStateManager) (ev : IPCMessage) : List OsCall :=
  match ev with
  | .Show => [OsCall.appbarWrite m.restore, OsCall.setTaskbarVisible true]
  | .Hide => [OsCall.appbarWrite m.enforce, OsCall.setTaskbarVisible false]
  | .Quit => [OsCall.appbarWrite m.restore, OsCall.setTaskbarVisible true]

/-- OS calls of the event loop over a list of events, stopping after Quit. -/
def loopCalls (m : TaskbarStateManager) : List IPCMessage → List OsCall
  | [] => []
  | ev :: rest =>
    eventCalls m ev ++ (if ev = IPCMessage.Quit then [] else loopCalls m rest)

/-- Whether an OS call touches taskbar state (an AppBar write issued by
`enforce`/`restore`/`TaskbarStateManager::new`, or a `set_taskbar_state`
show/hide). -/
def touchesTaskbarState : OsCall → Bool
  | .messageBox => false
  | .appbarWrite _ => true
  | .setTaskbarVisible _ => true

/-- GUI-mode `main` (lines 456-548) as a trace: the singleton check first
(line 456, `ok_or(...)?` exits on `None`); on success the
`TaskbarStateManager` construction write (if any), the explicit `enforce()`
and `set_taskbar_state(false)` (lines 479-480), the event loop, and the
`Drop` restore after the loop returns. -/
def main_gui (alreadyExists : Bool) (initState : Nat) (events : List IPCMessage) :
    Except String Unit × List OsCall :=
  match check_single_instance alreadyExists with
  | (none, calls) => (Except.error "Another instance is already running", calls)
  | (some _, calls) =>
    let r := TaskbarStateManager.new initState
    let newCalls := if r.2.2 then [OsCall.appbarWrite r.1.enforced_state] else []
    (Except.ok (),
      calls ++ newCalls ++
        [OsCall.appbarWrite r.1.enforce, OsCall.setTaskbarVisible false] ++
        loopCalls r.1 events ++ [OsCall.appbarWrite r.1.restore])

/-! ## Claim C2: singleton contention touches no taskbar state -/

/-- C2: if the singleton mutex is already held, `check_single_instance`
shows the warning dialog and returns no handle, and the GUI path exits with
an error; its only OS call is the dialog — no `enforce()`, `restore()` or
`set_taskbar_state` call occurs, whatever the AppBar state and whatever
events would have arrived. -/
theorem singleton_contention_touches_no_taskbar_state (initState : Nat)
    (events : List IPCMessage) :
    check_single_instance true = (none, [OsCall.messageBox]) ∧
    (main_gui true initState events).1 =
      Except.error "Another instance is already running" ∧
    (main_gui true initState events).2 = [OsCall.messageBox] ∧
    (main_gui true initState events).2.all
      (fun c => !touchesTaskbarState c) = true :=
  ⟨rfl, rfl, rfl, rfl⟩

/-! ## CLI dispatcher (src/cli.rs)

The OS environment is a `CliEnv`: whether `FindWindowW` finds the IPC
listener window, and the outcome (`status.success()` plus captured stderr
text) of the two `reg.exe` invocations. A `CliOutcome` records the exit
code, both output streams, the messages posted with `PostMessageW`, and
whether a new process was spawned. -/

def WM_APP : Nat := 32768

def WM_THIDE_SHOW : Nat := WM_APP + 1

def WM_THIDE_HIDE : Nat := WM_APP + 2

def WM_THIDE_QUIT : Nat := WM_APP + 3

structure CliEnv where
  windowFound : Bool
  regAddOk : Bool
  regAddStderr : String
  regDeleteOk : Bool
  regDeleteStderr : String
  deriving DecidableEq, Repr

structure CliOutcome where
  exitCode : Nat
  stdoutLines : List String
  stderrLines : List String
  posted : List Nat
  spawned : Bool
  deriving DecidableEq, Repr

/-- `print_usage` (src/cli.rs lines 166-180): the usage text, line by line. -/
def print_usage : List String :=
  ["THide - Taskbar Hide Utility", "", "USAGE:", "    thide [COMMAND]", "",
   "COMMANDS:",
   "    start              Start THide in GUI mode",
   "    show               Show the taskbar (if THide is running)",
   "    hide               Hide the taskbar (if THide is running)",
   "    stop               Stop THide and restore taskbar",
   "    enable-autostart   Enable autostart on login",
   "    disable-autostart  Disable autostart on login",
   "    help               Show this help message"]

/-- `send_command` (src/cli.rs lines 52-71). -/
def send_command (windowFound : Bool) (message : Nat) (success_msg : String) :
    CliOutcome :=
  if windowFound then
    { exitCode := 0, stdoutLines := [success_msg], stderrLines := [],
      posted := [message], spawned := false }
  else
    { exitCode := 1, stdoutLines := [],
      stderrLines := ["Error: THide is not running!"], posted := [],
      spawned := false }

/-- `start_gui` (src/cli.rs lines 89-102); `current_exe` and `spawn` are
modelled as succeeding. -/
def start_gui (windowFound : Bool) : CliOutcome :=
  if windowFound then
    { exitCode := 0, stdoutLines := ["THide is already running."],
      stderrLines := [], posted := [], spawned := false }
  else
    { exitCode := 0, stdoutLines := ["Starting THide..."], stderrLines := [],
      posted := [], spawned := true }

/-- `enable_autostart` (src/cli.rs lines 105-134). -/
def enable_autostart (regOk : Bool) (regErr : String) : CliOutcome :=
  if regOk then
    { exitCode := 0,
      stdoutLines := ["✓ Autostart enabled successfully!",
        "  THide will start automatically when you log in."],
      stderrLines := [], posted := [], spawned := false }
  else
    { exitCode := 1, stdoutLines := [],
      stderrLines := ["Failed to enable autostart: " ++ regErr],
      posted := [], spawned := false }

/-- `disable_autostart` (src/cli.rs lines 137-163): a failed `reg delete`
whose stderr contains "unable to find" or "does not exist" (reg.exe reports
this when no run-key value exists) is treated as success. -/
def disable_autostart (regOk : Bool) (regErr : String) : CliOutcome :=
  if regOk then
    { exitCode := 0, stdoutLines := ["✓ Autostart disabled successfully!"],
      stderrLines := [], posted := [], spawned := false }
  else if strContains regErr "unable to find" ||
      strContains regErr "does not exist" then
    { exitCode := 0, stdoutLines := ["Autostart was not enabled."],
      stderrLines := [], posted := [], spawned := false }
  else
    { exitCode := 1, stdoutLines := [],
      stderrLines := ["Failed to disable autostart: " ++ regErr],
      posted := [], spawned := false }

/-- `handle_cli_command` (src/cli.rs lines 11-34): dispatch on the lowered
first argument. -/
def handle_cli_command (env : CliEnv) (args : List String) : CliOutcome :=
  match args with
  | [] =>
    { exitCode := 0, stdoutLines := print_usage, stderrLines := [],
      posted := [], spawned := false }
  | cmd :: _ =>
    match lowerStr cmd with
    | "start" => start_gui env.windowFound
    | "show" => send_command env.windowFound WM_THIDE_SHOW "Showing taskbar..."
    | "hide" => send_command env.windowFound WM_THIDE_HIDE "Hiding taskbar..."
    | "stop" => send_command env.windowFound WM_THIDE_QUIT "Stopping THide..."
    | "quit" => send_command env.windowFound WM_THIDE_QUIT "Stopping THide..."
    | "enable-autostart" => enable_autostart env.regAddOk env.regAddStderr
    | "disable-autostart" => disable_autostart env.regDeleteOk env.regDeleteStderr
    | "help" =>
      { exitCode := 0, stdoutLines := print_usage, stderrLines := [],
        posted := [], spawned := false }
    | "--help" =>
      { exitCode := 0, stdoutLines := print_usage, stderrLines := [],
        posted := [], spawned := false }
    | "-h" =>
      { exitCode := 0, stdoutLines := print_usage, stderrLines := [],
        posted := [], spawned := false }
    | _ =>
      { exitCode := 1, stdoutLines := print_usage,
        stderrLines := ["Unknown command: " ++ cmd], posted := [],
        spawned := false }

inductive ProgramRun where
  | gui
  | cli (outcome : CliOutcome)
  deriving DecidableEq, Repr

/-- `main` (src/main.rs lines 446-453): with arguments present, attach the
console and dispatch to the CLI; with no arguments, enter GUI mode. -/
def main_entry (env : CliEnv) (args : List String) : ProgramRun :=
  if args.isEmpty then ProgramRun.gui
  else ProgramRun.cli (handle_cli_command env args)

/-! ## Claim C7: CLI commands against a missing / present listener -/

/-- The reserved message identifier a CLI command posts (src/cli.rs
lines 5-7 and 19-21). -/
def requiredMessageId (cmd : String) : Nat :=
  if cmd == "show" then WM_THIDE_SHOW
  else if cmd == "hide" then WM_THIDE_HIDE
  else WM_THIDE_QUIT

/-- C7: with no IPC listener window, `show`/`hide`/`stop`/`quit` print the
error line to standard error and exit 1 without posting or spawning
anything; with the window present they post the command's reserved message,
print one success line to standard output and exit 0; `start` with no
listener spawns a new instance instead. -/
theorem cli_commands_require_listener (env : CliEnv) (cmd : String)
    (h : cmd = "show" ∨ cmd = "hide" ∨ cmd = "stop" ∨ cmd = "quit") :
    ((handle_cli_command { env with windowFound := false } [cmd]).exitCode ≠ 0 ∧
      (handle_cli_command { env with windowFound := false } [cmd]).stderrLines =
        ["Error: THide is not running!"] ∧
      (handle_cli_command { env with windowFound := false } [cmd]).spawned = false ∧
      (handle_cli_command { env with windowFound := false } [cmd]).posted = []) ∧
    ((handle_cli_command { env with windowFound := true } [cmd]).exitCode = 0 ∧
      (handle_cli_command { env with windowFound := true } [cmd]).posted =
        [requiredMessageId cmd] ∧
      (handle_cli_command { env with windowFound := true } [cmd]).stdoutLines.length = 1 ∧
      (handle_cli_command { env with windowFound := true } [cmd]).stderrLines = []) ∧
    (handle_cli_command { env with windowFound := false } ["start"]).spawned = true := by
  rcases h with rfl | rfl | rfl | rfl <;>
    exact ⟨⟨one_ne_zero, rfl, rfl, rfl⟩, ⟨rfl, rfl, rfl, rfl⟩, rfl⟩

/-- Witness for C7 at the `show` command and a concrete environment. -/
theorem cli_commands_require_listener_witness :
    (("show" : String) = "show" ∨ ("show" : String) = "hide" ∨
      ("show" : String) = "stop" ∨ ("show" : String) = "quit") ∧
    (((handle_cli_command
        { (⟨true, true, "", true, ""⟩ : CliEnv) with windowFound := false }
        ["show"]).exitCode ≠ 0 ∧
      (handle_cli_command
        { (⟨true, true, "", true, ""⟩ : CliEnv) with windowFound := false }
        ["show"]).stderrLines = ["Error: THide is not running!"] ∧
      (handle_cli_command
        { (⟨true, true, "", true, ""⟩ : CliEnv) with windowFound := false }
        ["show"]).spawned = false ∧
      (handle_cli_command
        { (⟨true, true, "", true, ""⟩ : CliEnv) with windowFound := false }
        ["show"]).posted = []) ∧
    ((handle_cli_command
        { (⟨true, true, "", true, ""⟩ : CliEnv) with windowFound := true }
        ["show"]).exitCode = 0 ∧
      (handle_cli_command
        { (⟨true, true, "", true, ""⟩ : CliEnv) with windowFound := true }
        ["show"]).posted = [requiredMessageId "show"] ∧
      (handle_cli_command
        { (⟨true, true, "", true, ""⟩ : CliEnv) with windowFound := true }
        ["show"]).stdoutLines.length = 1 ∧
      (handle_cli_command
        { (⟨true, true, "", true, ""⟩ : CliEnv) with windowFound := true }
        ["show"]).stderrLines = []) ∧
    (handle_cli_command
        { (⟨true, true, "", true, ""⟩ : CliEnv) with windowFound := false }
        ["start"]).spawned = true) :=
  ⟨Or.inl rfl,
    cli_commands_require_listener ⟨true, true, "", true, ""⟩ "show" (Or.inl rfl)⟩

/-! ## Claim C8: no command-line arguments -/

/-- Formalisation of C8's claimed behaviour: the run printed the usage text
and exited with code 0 (a GUI-mode run does neither — it prints nothing and
keeps running). -/
def printsUsageAndExitsZero : ProgramRun → Bool
  | ProgramRun.gui => false
  | ProgramRun.cli o => o.stdoutLines == print_usage && o.exitCode == 0

/-- C8 as stated is false at the concrete input: invoked with no arguments,
`main` (src/main.rs line 450) enters GUI mode — the CLI, and with it the
usage text, is reached only when arguments are present. -/
theorem no_args_usage_counterexample :
    main_entry ⟨true, true, "", true, ""⟩ [] = ProgramRun.gui ∧
    printsUsageAndExitsZero (main_entry ⟨true, true, "", true, ""⟩ []) = false :=
  ⟨rfl, rfl⟩

/-- C8 (amended): with no arguments the program enters GUI mode; the usage
text with exit code 0 is what the `help` command produces — and what
`handle_cli_command` would produce on an empty argument list, a branch
`main` never reaches since it dispatches to the CLI only for nonempty
arguments. -/
theorem no_args_enters_gui (env : CliEnv) :
    main_entry env [] = ProgramRun.gui ∧
    (handle_cli_command env ["help"]).stdoutLines = print_usage ∧
    (handle_cli_command env ["help"]).exitCode = 0 ∧
    (handle_cli_command env []).stdoutLines = print_usage ∧
    (handle_cli_command env []).exitCode = 0 :=
  ⟨rfl, rfl, rfl, rfl, rfl⟩

/-! ## Claim C9: disable-autostart with no run-key value -/

/-- C9: when the registry delete fails because no run-key value exists
(reg.exe stderr contains "unable to find" or "does not exist"),
`disable_autostart` exits 0 and prints nothing to standard error; any other
delete failure is reported on standard error and exits 1. -/
theorem disable_autostart_missing_value_ok (regErr : String) :
    (disable_autostart false regErr).exitCode =
      (if strContains regErr "unable to find" ||
          strContains regErr "does not exist" then 0 else 1) ∧
    (disable_autostart false regErr).stderrLines =
      (if strContains regErr "unable to find" ||
          strContains regErr "does not exist" then []
        else ["Failed to disable autostart: " ++ regErr]) := by
  cases hc : strContains regErr "unable to find" ||
      strContains regErr "does not exist" <;>
    simp [disable_autostart, hc]
